import Mathlib

/-!
Shallow embedding of the user-service repository (Go): the list-query
translation layer (query parameter parsing, storage query construction),
the field validator, and the write-path orchestration (create / update /
delete handlers with their store-then-publish failure policy).

Conventions of the embedding:
* Go strings are `String`; `uuid.UUID` is an opaque `String`; `time.Time`
  (millisecond-truncated) is an `Int` of epoch milliseconds.
* Fallible Go functions returning `(T, error)` become `Except String T`,
  `Option` pairs, or dedicated outcome types mirroring the error taxonomy
  (`NotFoundError`, `ResponseUnmarshallError`, generic errors).
* The external store and the Kafka producer are oracles: their results are
  parameters of the embedded functions.  Logging is not modelled (it is the
  only effect of a swallowed error in the source).
* A Go nil-pointer dereference is modelled explicitly as a `panicked`
  outcome (in the running service, gin.Recovery turns it into an HTTP 500
  with an empty body).
-/

namespace UserService

/-- Go: `model.User` (internal/model/user.go). `id` is the uuid as a string,
timestamps are epoch milliseconds. -/
structure User where
  id : String
  firstName : String
  lastName : String
  nickname : String
  password : String
  email : String
  country : String
  createdAt : Int
  updatedAt : Int
deriving DecidableEq, Repr

/-- Go: `controller.validateRequiredRequestFields` (controller.go).
`emailOk` abstracts `net/mail.ParseAddress` succeeding (the email grammar is
external to the repository). Returns `some message` for the first violated
rule, `none` when all rules pass. -/
def validateRequiredRequestFields (emailOk : String → Bool) (u : User) : Option String :=
  if u.firstName = "" then some "first name is required"
  else if u.lastName = "" then some "last name is required"
  else if u.nickname = "" then some "nickname is required"
  else if u.password = "" then some "password is required"
  else if u.email = "" then some "email is required"
  else if !(emailOk u.email) then some "email is invalid"
  else if u.country = "" then some "country is required"
  else none

/-- Spec-side (from the spec words, §4.1): the fixed, ordered list of
validation rules, each a (violated?, message) pair. -/
def specRules (emailOk : String → Bool) (u : User) : List (Bool × String) :=
  [ (u.firstName == "", "first name is required"),
    (u.lastName == "", "last name is required"),
    (u.nickname == "", "nickname is required"),
    (u.password == "", "password is required"),
    (u.email == "", "email is required"),
    (!(emailOk u.email), "email is invalid"),
    (u.country == "", "country is required") ]

/-- Spec-side (from the spec words, §4.1): the message of the FIRST violated
rule, or `none`; by construction at most one message is ever returned. -/
def firstViolation : List (Bool × String) → Option String
  | [] => none
  | (b, m) :: rest => if b then some m else firstViolation rest

/-- A user value with every field set (used as a concrete test input). -/
def testUser : User :=
  { id := "", firstName := "Jane", lastName := "Doe", nickname := "jd",
    password := "pw", email := "jd@example.com", country := "SK",
    createdAt := 0, updatedAt := 0 }

/-- A user value missing both first and last name. -/
def testUserNoNames : User :=
  { testUser with firstName := "", lastName := "" }

/-- C3: the Validator agrees with the spec's short-circuit rule list: it
returns either no error or exactly the first violated rule in the fixed
order (first name, last name, nickname, password, email empty, email
malformed, country), one message at most per call; in particular a user
missing both first and last name reports only "first name is required". -/
theorem c3_validator_first_violation (emailOk : String → Bool) (u : User) :
    validateRequiredRequestFields emailOk u = firstViolation (specRules emailOk u) ∧
    (u.firstName = "" → validateRequiredRequestFields emailOk u = some "first name is required") := by
  constructor
  · simp only [validateRequiredRequestFields, specRules, firstViolation, beq_iff_eq,
      Bool.not_eq_eq_eq_not, Bool.not_true, Bool.not_eq_true']
  · intro h
    simp [validateRequiredRequestFields, h]

/-- C3 witness: concrete instance with both names missing. -/
theorem c3_validator_first_violation_witness :
    testUserNoNames.firstName = "" ∧
    validateRequiredRequestFields (fun _ => true) testUserNoNames = some "first name is required" :=
  ⟨rfl, (c3_validator_first_violation (fun _ => true) testUserNoNames).2 rfl⟩

/-- Go: `model.Sort` (internal/model/get_users_params.go); `Sort` is a Lean
builtin, hence the name. `type` is the direction, "asc" or "desc". -/
structure SortParam where
  field : String
  type : String
deriving DecidableEq, Repr

/-- Go: `model.FilterFields` (internal/model/get_users_params.go); the Go
zero value is all-empty strings, empty meaning "no constraint". -/
structure FilterFields where
  firstName : String := ""
  lastName : String := ""
  nickname : String := ""
  email : String := ""
  country : String := ""
deriving DecidableEq, Repr

/-- Go: `model.GetUsersParams` (internal/model/get_users_params.go). -/
structure GetUsersParams where
  pageSize : Int
  page : Int
  sort : SortParam
  filterFields : FilterFields
deriving DecidableEq, Repr

/-- The raw HTTP query parameters consulted by the list handler
(`c.GetQuery`): `some v` when the parameter is present with value `v`. -/
structure QueryParams where
  pageSize : Option String := none
  page : Option String := none
  sortBy : Option String := none
  firstName : Option String := none
  lastName : Option String := none
  nickname : Option String := none
  email : Option String := none
  country : Option String := none
deriving DecidableEq, Repr

instance {ε α : Type} [DecidableEq ε] [DecidableEq α] : DecidableEq (Except ε α) := fun x y =>
  match x, y with
  | .error e, .error f =>
    if h : e = f then .isTrue (h ▸ rfl) else .isFalse (fun hc => h (Except.error.inj hc))
  | .ok a, .ok b =>
    if h : a = b then .isTrue (h ▸ rfl) else .isFalse (fun hc => h (Except.ok.inj hc))
  | .error _, .ok _ => .isFalse (fun hc => Except.noConfusion hc)
  | .ok _, .error _ => .isFalse (fun hc => Except.noConfusion hc)

/-- Splits a character list at every occurrence of `sep`; the semantics of
Go `strings.Split` (and of `String.splitOn` for a one-character separator):
an empty input yields one empty segment, adjacent separators yield empty
segments. Defined over `List Char` so that concrete instances reduce. -/
def splitOnChar (sep : Char) : List Char → List (List Char)
  | [] => [[]]
  | c :: rest =>
    if c = sep then [] :: splitOnChar sep rest
    else match splitOnChar sep rest with
      | s :: ss => (c :: s) :: ss
      | [] => [[c]]

/-- Go: `strings.Split(s, sep)` for a one-character separator. -/
def goSplit (s : String) (sep : Char) : List String :=
  (splitOnChar sep s.data).map String.mk

/-- ASCII lower-casing of one character (the inputs relevant here are
ASCII; Go `strings.ToLower` agrees with this on ASCII). -/
def goToLowerChar (c : Char) : Char :=
  if 'A' ≤ c ∧ c ≤ 'Z' then Char.ofNat (c.toNat + 32) else c

/-- Go: `strings.ToLower` (ASCII fragment). -/
def goToLower (s : String) : String := String.mk (s.data.map goToLowerChar)

/-- Decimal value of a digit list, `none` if any character is not a
digit. -/
def digitsVal (cs : List Char) : Option Nat :=
  cs.foldl
    (fun acc c =>
      match acc with
      | none => none
      | some n => if c.isDigit then some (10 * n + (c.toNat - 48)) else none)
    (some 0)

/-- Go: `strconv.Atoi` — optional sign followed by at least one decimal
digit (overflow is irrelevant to the inputs considered here, so the result
is an unbounded `Int`). -/
def atoi (s : String) : Option Int :=
  match s.data with
  | [] => none
  | '-' :: rest =>
    if rest.isEmpty then none else (digitsVal rest).map (fun n => -(n : Int))
  | '+' :: rest =>
    if rest.isEmpty then none else (digitsVal rest).map (fun n => (n : Int))
  | cs => (digitsVal cs).map (fun n => (n : Int))

/-- Go: `controller.supportedSortFields` (the allow-list of 8 sortable
fields; a Go map, order irrelevant). -/
def supportedSortFields : List String :=
  ["last_name", "first_name", "nickname", "password", "email", "country",
   "created_at", "updated_at"]

/-- Go: `controller.parseSortBy`: lower-case, split on ".", then check
segment count, sort-field allow-list, direction — in that order. -/
def parseSortBy (sortBy : String) : Except String SortParam :=
  let lowered := goToLower sortBy
  let parts := goSplit lowered '.'
  match parts with
  | [field, direction] =>
    if ¬ supportedSortFields.contains field then
      Except.error "unsupported sorting field"
    else if direction ≠ "asc" ∧ direction ≠ "desc" then
      Except.error "invalid sorting type"
    else
      Except.ok { field := field, type := direction }
  | _ => Except.error "invalid sortBy query parameter format"

/-- Go: `controller.parseFilterFields`: copy each present filter query
parameter verbatim; absent parameters leave the zero-value empty string. -/
def parseFilterFields (q : QueryParams) : FilterFields :=
  { firstName := q.firstName.getD ""
    lastName := q.lastName.getD ""
    nickname := q.nickname.getD ""
    email := q.email.getD ""
    country := q.country.getD "" }

/-- Go: `controller.defaultPageSize`. -/
def defaultPageSize : Int := 20

/-- Go: `controller.defaultPage`. -/
def defaultPage : Int := 0

/-- Go: `controller.parseGetUsersParams`: pageSize, then page, then sortBy,
stopping at the first failure; filters cannot fail. -/
def parseGetUsersParams (q : QueryParams) : Except String GetUsersParams := do
  let pageSize ← match q.pageSize with
    | none => pure defaultPageSize
    | some got =>
      match atoi got with
      | none => Except.error "pageSize query parameter has to be a number"
      | some parsed =>
        if parsed < 0 then Except.error "pageSize query parameter has to be a positive number"
        else pure parsed
  let page ← match q.page with
    | none => pure defaultPage
    | some got =>
      match atoi got with
      | none => Except.error "page query parameter has to be a number"
      | some parsed =>
        if parsed < 0 then Except.error "page query parameter has to be a positive number"
        else pure parsed
  let sort ← match q.sortBy with
    | none => pure { field := "last_name", type := "asc" : SortParam }
    | some got => parseSortBy got
  pure { pageSize := pageSize, page := page, sort := sort,
         filterFields := parseFilterFields q }

/-- A query with no parameters set. -/
def emptyQuery : QueryParams := {}

/-- C6: the Query Parameter Parser fails with exactly these messages on
these inputs: pageSize=-1 and page=-1 each yield their "has to be a
positive number" message; sortBy=email.unknown yields "invalid sorting
type"; sortBy=unknown.desc yields "unsupported sorting field";
sortBy=a.b.c yields "invalid sortBy query parameter format". -/
theorem c6_parser_exact_messages :
    parseGetUsersParams { emptyQuery with pageSize := some "-1" } =
      Except.error "pageSize query parameter has to be a positive number" ∧
    parseGetUsersParams { emptyQuery with page := some "-1" } =
      Except.error "page query parameter has to be a positive number" ∧
    parseGetUsersParams { emptyQuery with sortBy := some "email.unknown" } =
      Except.error "invalid sorting type" ∧
    parseGetUsersParams { emptyQuery with sortBy := some "unknown.desc" } =
      Except.error "unsupported sorting field" ∧
    parseGetUsersParams { emptyQuery with sortBy := some "a.b.c" } =
      Except.error "invalid sortBy query parameter format" := by
  refine ⟨?_, ?_, ?_, ?_, ?_⟩ <;> decide

/-- C10: inside sortBy parsing the segment-count check precedes the
sort-field allow-list check, which precedes the direction check; so any
lower-cased two-segment input with an unsupported field reports
"unsupported sorting field", whatever the direction segment is — never
"invalid sorting type". -/
theorem c10_unknown_field_beats_unknown_direction (s f d : String)
    (hsplit : goSplit (goToLower s) '.' = [f, d])
    (hfield : ¬ supportedSortFields.contains f) :
    parseSortBy s = Except.error "unsupported sorting field" := by
  simp only [parseSortBy, hsplit]
  rw [if_pos hfield]

/-- C10 witness: "unknown.bad" has both an unsupported field and an
unsupported direction, and reports the field error. -/
theorem c10_unknown_field_beats_unknown_direction_witness :
    goSplit (goToLower "unknown.bad") '.' = ["unknown", "bad"] ∧
    ¬ supportedSortFields.contains "unknown" ∧
    parseSortBy "unknown.bad" = Except.error "unsupported sorting field" :=
  ⟨by decide, by decide,
   c10_unknown_field_beats_unknown_direction "unknown.bad" "unknown" "bad" (by decide) (by decide)⟩

/-- The mongo `options.FindOptions` fields set by the storage query
builder: a single-field sort (1 ascending, -1 descending), a limit and a
skip (`int64`; 0 means "unset / store default" in the driver's
convention). -/
structure FindOptions where
  sortField : String
  sortType : Int
  limit : Int
  skip : Int
deriving DecidableEq, Repr

/-- Go: `storage.createGetUsersOpts` (MongoUsersStorage): validates the
descriptor a second time, then builds sort, limit = pageSize and
skip = page * pageSize. -/
def createGetUsersOpts (params : GetUsersParams) : Except String FindOptions :=
  if params.sort.field = "" then Except.error "sort field is required"
  else if params.pageSize < 0 then Except.error "page size cannot be negative number"
  else if params.page < 0 then Except.error "page cannot be negative number"
  else
    let sortType : Int := if params.sort.type = "desc" then -1 else 1
    Except.ok { sortField := params.sort.field, sortType := sortType,
                limit := params.pageSize, skip := params.page * params.pageSize }

/-- C4: for a descriptor with a non-empty sort field and non-negative page
and pageSize, the builder succeeds with skip = page * pageSize and
limit = pageSize; in particular pageSize = 0 yields limit 0, the driver's
numeric-zero-means-unset convention (store default, not "zero results"). -/
theorem c4_pagination_arithmetic (params : GetUsersParams)
    (hsort : params.sort.field ≠ "")
    (hps : 0 ≤ params.pageSize) (hp : 0 ≤ params.page) :
    createGetUsersOpts params =
      Except.ok { sortField := params.sort.field,
                  sortType := if params.sort.type = "desc" then -1 else 1,
                  limit := params.pageSize,
                  skip := params.page * params.pageSize } ∧
    (params.pageSize = 0 →
      ∀ opts, createGetUsersOpts params = Except.ok opts → opts.limit = 0) := by
  have h1 : ¬ params.pageSize < 0 := not_lt.mpr hps
  have h2 : ¬ params.page < 0 := not_lt.mpr hp
  constructor
  · simp [createGetUsersOpts, hsort, h1, h2]
  · intro hzero opts hok
    simp [createGetUsersOpts, hsort, h1, h2] at hok
    rw [← hok, hzero]

/-- C4 witness: page 4, pageSize 13, sorted by first_name descending gives
skip 52 and limit 13; and a pageSize-0 descriptor gives limit 0. -/
theorem c4_pagination_arithmetic_witness :
    (let p : GetUsersParams :=
      { pageSize := 13, page := 4, sort := { field := "first_name", type := "desc" },
        filterFields := {} }
     p.sort.field ≠ "" ∧ 0 ≤ p.pageSize ∧ 0 ≤ p.page ∧
     createGetUsersOpts p =
       Except.ok { sortField := "first_name", sortType := -1, limit := 13, skip := 52 }) ∧
    (let z : GetUsersParams :=
      { pageSize := 0, page := 0, sort := { field := "last_name", type := "asc" },
        filterFields := {} }
     createGetUsersOpts z =
       Except.ok { sortField := "last_name", sortType := 1, limit := 0, skip := 0 }) := by
  refine ⟨⟨by decide, by decide, by decide, ?_⟩, ?_⟩
  · exact (c4_pagination_arithmetic _ (by decide) (by decide) (by decide)).1
  · exact (c4_pagination_arithmetic _ (by decide) (by decide) (by decide)).1

/-- C5 counterexample: the claim says the builder rejects negative values
"with the same message text as the Query Parameter Parser"; in fact the
builder's texts differ from the parser's. At pageSize = -1 the builder says
"page size cannot be negative number" while the parser says "pageSize query
parameter has to be a positive number" (and likewise for page). -/
theorem c5_message_text_differs :
    createGetUsersOpts
        { pageSize := -1, page := 0, sort := { field := "last_name", type := "asc" },
          filterFields := {} } =
      Except.error "page size cannot be negative number" ∧
    parseGetUsersParams { emptyQuery with pageSize := some "-1" } =
      Except.error "pageSize query parameter has to be a positive number" ∧
    createGetUsersOpts
        { pageSize := 20, page := -1, sort := { field := "last_name", type := "asc" },
          filterFields := {} } =
      Except.error "page cannot be negative number" ∧
    parseGetUsersParams { emptyQuery with page := some "-1" } =
      Except.error "page query parameter has to be a positive number" ∧
    "page size cannot be negative number" ≠ "pageSize query parameter has to be a positive number" ∧
    "page cannot be negative number" ≠ "page query parameter has to be a positive number" := by
  refine ⟨?_, ?_, ?_, ?_, ?_, ?_⟩ <;> decide

/-- C5 amended: for every descriptor with a negative page or page size the
builder fails; when the sort field is non-empty the messages are the
builder's own "page size cannot be negative number" / "page cannot be
negative number" (pageSize checked first) — not the parser's texts. -/
theorem c5_builder_rejects_negative (params : GetUsersParams)
    (hneg : params.pageSize < 0 ∨ params.page < 0) :
    (∃ m, createGetUsersOpts params = Except.error m) ∧
    (params.sort.field ≠ "" → params.pageSize < 0 →
      createGetUsersOpts params = Except.error "page size cannot be negative number") ∧
    (params.sort.field ≠ "" → 0 ≤ params.pageSize → params.page < 0 →
      createGetUsersOpts params = Except.error "page cannot be negative number") := by
  refine ⟨?_, ?_, ?_⟩
  · by_cases hs : params.sort.field = ""
    · exact ⟨"sort field is required", by simp [createGetUsersOpts, hs]⟩
    · rcases hneg with h | h
      · exact ⟨"page size cannot be negative number", by simp [createGetUsersOpts, hs, h]⟩
      · by_cases hps : params.pageSize < 0
        · exact ⟨"page size cannot be negative number", by simp [createGetUsersOpts, hs, hps]⟩
        · exact ⟨"page cannot be negative number", by simp [createGetUsersOpts, hs, hps, h]⟩
  · intro hs hps
    simp [createGetUsersOpts, hs, hps]
  · intro hs hps hp
    simp [createGetUsersOpts, hs, not_lt.mpr hps, hp]

/-- C5 amended-claim witness: concrete negative descriptors. -/
theorem c5_builder_rejects_negative_witness :
    ((-1 : Int) < 0 ∨ (0 : Int) < 0) ∧
    createGetUsersOpts
        { pageSize := -1, page := 0, sort := { field := "nickname", type := "asc" },
          filterFields := {} } =
      Except.error "page size cannot be negative number" := by
  refine ⟨Or.inl (by decide), ?_⟩
  exact (c5_builder_rejects_negative
    { pageSize := -1, page := 0, sort := { field := "nickname", type := "asc" },
      filterFields := {} } (Or.inl (by decide))).2.1 (by decide) (by decide)

/-- A BSON value as it appears in the users collection: a string field, a
timestamp (epoch millis), or the uuid primary key. -/
inductive BsonValue where
  | str (s : String)
  | time (millis : Int)
  | uuid (id : String)
deriving DecidableEq, Repr

/-- Go: the `$set` clause built by `MongoUsersStorage.UpdateUser`
(storage, lines 114-124): exactly these field/value pairs, in source
order. -/
def updateUserSetClause (user : User) : List (String × BsonValue) :=
  [ ("first_name", .str user.firstName),
    ("last_name", .str user.lastName),
    ("nickname", .str user.nickname),
    ("password", .str user.password),
    ("email", .str user.email),
    ("country", .str user.country),
    ("updated_at", .time user.updatedAt) ]

/-- Mongo `$set` semantics on a document viewed as a partial map from field
name to value: fields named in the clause take the clause's value, all
other fields keep the stored value. -/
def applySet (doc : String → Option BsonValue) (clause : List (String × BsonValue)) :
    String → Option BsonValue :=
  fun k =>
    match clause.find? (fun p => p.1 == k) with
    | some p => some p.2
    | none => doc k

/-- C7: the update clause sets exactly first_name, last_name, nickname,
password, email, country and updated_at, and excludes created_at; hence
applying it leaves the stored created_at unchanged whatever the caller
supplied in the user value. -/
theorem c7_update_never_touches_created_at
    (doc : String → Option BsonValue) (user : User) :
    applySet doc (updateUserSetClause user) "created_at" = doc "created_at" ∧
    (updateUserSetClause user).map Prod.fst =
      ["first_name", "last_name", "nickname", "password", "email", "country", "updated_at"] ∧
    "created_at" ∉ (updateUserSetClause user).map Prod.fst := by
  refine ⟨?_, by simp [updateUserSetClause], by simp [updateUserSetClause]⟩
  simp [applySet, updateUserSetClause, List.find?]

/-- Go: the `user_data` payload of a `model.UserEvent`: the full user for
create/update, only the identifier (`model.UserDeletedData`) for delete. -/
inductive EventPayload where
  | user (u : User)
  | deleted (userID : String)
deriving DecidableEq, Repr

/-- Go: `model.UserEvent` — an action tag plus a payload. -/
structure UserEvent where
  action : String
  userData : EventPayload
deriving DecidableEq, Repr

/-- Go: `model.NewUserCreatedEvent`. -/
def NewUserCreatedEvent (u : User) : UserEvent := { action := "created", userData := .user u }

/-- Go: `model.NewUserUpdatedEvent`. -/
def NewUserUpdatedEvent (u : User) : UserEvent := { action := "updated", userData := .user u }

/-- Go: `model.NewUserDeletedEvent`. -/
def NewUserDeletedEvent (userID : String) : UserEvent :=
  { action := "deleted", userData := .deleted userID }

/-- The storage error taxonomy: `NotFoundError`, `ResponseUnmarshallError`
(write succeeded, result decode failed) and generic driver errors. -/
inductive StorageErr where
  | notFound
  | unmarshall (e : String)
  | generic (e : String)
deriving DecidableEq, Repr

/-- Outcome of the driver-level `FindOneAndUpdate` + `Decode` pair inside
`MongoUsersStorage.UpdateUser`. -/
inductive DbUpdateOutcome where
  | updatedDoc (u : User)
  | noDocuments
  | dbError (e : String)
  | decodeFailed (e : String)
deriving DecidableEq, Repr

/-- Go: `MongoUsersStorage.UpdateUser` result mapping (storage, lines
126-141): `ErrNoDocuments` becomes `NotFoundError`, a decode failure
becomes `ResponseUnmarshallError`, other errors pass through; the returned
user pointer is nil (`none`) in every error case. -/
def mongoUpdateUser : DbUpdateOutcome → Option User × Option StorageErr
  | .updatedDoc u => (some u, none)
  | .noDocuments => (none, some .notFound)
  | .dbError e => (none, some (.generic e))
  | .decodeFailed e => (none, some (.unmarshall e))

/-- Result of running a Go function body that may hit a runtime panic
(here: a nil-pointer dereference). -/
inductive GoOutcome (α : Type) where
  | ok (a : α)
  | panicked
deriving DecidableEq, Repr

/-- Go: `service.Service.UpdateUser` (the path wired by main.go): stamps
updated_at, calls the storage (an oracle `storeRet`), and on a
`ResponseUnmarshallError` logs and falls through to
`Produce(model.NewUserUpdatedEvent(*updated))` — dereferencing the
returned pointer, which is nil in that case. A publish error
(`produceErr`) is logged only. Result: the returned Go error (or a
panic) paired with the events handed to the producer. -/
def serviceUpdateUser (user : User) (now : Int)
    (storeRet : User → Option User × Option StorageErr) (produceErr : Option String) :
    GoOutcome (Option StorageErr) × List UserEvent :=
  let stamped := { user with updatedAt := now }
  let (updated, err) := storeRet stamped
  match err with
  | some (.unmarshall _) =>
    match updated with
    | some u => (.ok none, [NewUserUpdatedEvent u])
    | none => (.panicked, [])
  | some e => (.ok (some e), [])
  | none =>
    match updated with
    | some u => (.ok none, [NewUserUpdatedEvent u])
    | none => (.panicked, [])

/-- The HTTP body written by a handler: `c.Status` leaves it empty,
`c.JSON` writes an error object, an entity, or a collection. -/
inductive RespBody where
  | empty
  | errorJson (msg : String)
  | userJson (u : User)
  | usersJson (us : List User)
deriving DecidableEq, Repr

/-- Observable outcome of one handler invocation: HTTP status and body,
whether the store was invoked, the events handed to the producer, and
whether the handler body panicked (gin.Recovery then produced the 500). -/
structure HandlerTrace where
  status : Nat
  body : RespBody
  storeCalled : Bool
  published : List UserEvent
  panicked : Bool := false
deriving DecidableEq, Repr

/-- Go: `controller.updateUser` of the service-wired revision
(controller.go, first version): bind JSON, validate, parse the path id,
then delegate to `Service.UpdateUser`; `NotFoundError` maps to 404, any
other returned error to 500 with an error body; a panic inside the service
is turned into a bodyless 500 by gin.Recovery. -/
def updateUserHandler (emailOk : String → Bool) (bindResult : Except String User)
    (idParse : Except String String) (now : Int)
    (storeRet : User → Option User × Option StorageErr) (produceErr : Option String) :
    HandlerTrace :=
  match bindResult with
  | .error e => { status := 400, body := .errorJson e, storeCalled := false, published := [] }
  | .ok user =>
    match validateRequiredRequestFields emailOk user with
    | some msg => { status := 400, body := .errorJson msg, storeCalled := false, published := [] }
    | none =>
      match idParse with
      | .error e =>
        { status := 400, body := .errorJson ("incorrect user ID format: " ++ e),
          storeCalled := false, published := [] }
      | .ok userID =>
        match serviceUpdateUser { user with id := userID } now storeRet produceErr with
        | (.panicked, evs) =>
          { status := 500, body := .empty, storeCalled := true, published := evs,
            panicked := true }
        | (.ok none, evs) =>
          { status := 204, body := .empty, storeCalled := true, published := evs }
        | (.ok (some .notFound), evs) =>
          { status := 404, body := .errorJson "user not found", storeCalled := true,
            published := evs }
        | (.ok (some _), evs) =>
          { status := 500, body := .errorJson "user not updated", storeCalled := true,
            published := evs }

/-- Go: `controller.createUser` of the direct revision (controller.go,
lines 261-309): bind, validate, new uuid, stamp id and both timestamps,
store write, then a fire-and-forget publish of the "created" event. -/
def createUserD (emailOk : String → Bool) (bindResult : Except String User)
    (newUUID : Except String String) (now : Int)
    (storeErr : Option String) (produceErr : Option String) : HandlerTrace :=
  match bindResult with
  | .error e => { status := 400, body := .errorJson e, storeCalled := false, published := [] }
  | .ok user =>
    match validateRequiredRequestFields emailOk user with
    | some msg => { status := 400, body := .errorJson msg, storeCalled := false, published := [] }
    | none =>
      match newUUID with
      | .error _ =>
        { status := 500, body := .errorJson "user not created", storeCalled := false,
          published := [] }
      | .ok newID =>
        let user := { user with id := newID, createdAt := now, updatedAt := now }
        match storeErr with
        | some _ =>
          { status := 500, body := .errorJson "user not created", storeCalled := true,
            published := [] }
        | none =>
          { status := 201, body := .userJson user, storeCalled := true,
            published := [NewUserCreatedEvent user] }

/-- Go: `controller.getUser` (identical in both revisions): id parse, store
read; not-found maps to 404 with an error body, any other store error to
`c.Status(500)` — a 500 with an EMPTY body. -/
def getUserD (idParse : Except String String) (storeRet : Except StorageErr User) :
    HandlerTrace :=
  match idParse with
  | .error e =>
    { status := 400, body := .errorJson ("incorrect user ID format: " ++ e),
      storeCalled := false, published := [] }
  | .ok _ =>
    match storeRet with
    | .error .notFound =>
      { status := 404, body := .errorJson "user not found", storeCalled := true,
        published := [] }
    | .error _ => { status := 500, body := .empty, storeCalled := true, published := [] }
    | .ok u => { status := 200, body := .userJson u, storeCalled := true, published := [] }

/-- Go: `MongoUsersStorage.GetUsers`: build the find options from the
descriptor (can fail) then run the driver find, whose result is the oracle
`dbFind`. -/
def storageGetUsers (params : GetUsersParams) (dbFind : Except String (List User)) :
    Except String (List User) :=
  match createGetUsersOpts params with
  | .error e => .error e
  | .ok _ => dbFind

/-- Go: `controller.getUsers` (identical in both revisions): parse the
query parameters (400 with the parser's message on failure), read from the
store; a store error yields `c.Status(500)` — a 500 with an EMPTY body; an
empty result is a 200 with an empty collection. -/
def getUsersD (q : QueryParams) (dbFind : Except String (List User)) : HandlerTrace :=
  match parseGetUsersParams q with
  | .error e => { status := 400, body := .errorJson e, storeCalled := false, published := [] }
  | .ok params =>
    match storageGetUsers params dbFind with
    | .error _ => { status := 500, body := .empty, storeCalled := true, published := [] }
    | .ok users =>
      { status := 200, body := .usersJson users, storeCalled := true, published := [] }

/-- Go: `controller.updateUser` of the direct revision (controller.go,
lines 368-433): bind, validate, id parse, stamp, store update; a
`ResponseUnmarshallError` sets `produceEvent = false` and still answers
204; not-found 404; generic error 500 with body; success publishes the
"updated" event carrying the post-write document (publish error logged
only) and answers 204. -/
def updateUserD (emailOk : String → Bool) (bindResult : Except String User)
    (idParse : Except String String) (now : Int)
    (storeRet : User → Option User × Option StorageErr) (produceErr : Option String) :
    HandlerTrace :=
  match bindResult with
  | .error e => { status := 400, body := .errorJson e, storeCalled := false, published := [] }
  | .ok user =>
    match validateRequiredRequestFields emailOk user with
    | some msg => { status := 400, body := .errorJson msg, storeCalled := false, published := [] }
    | none =>
      match idParse with
      | .error e =>
        { status := 400, body := .errorJson ("incorrect user ID format: " ++ e),
          storeCalled := false, published := [] }
      | .ok userID =>
        let stamped := { user with id := userID, updatedAt := now }
        match storeRet stamped with
        | (_, some (.unmarshall _)) =>
          { status := 204, body := .empty, storeCalled := true, published := [] }
        | (_, some .notFound) =>
          { status := 404, body := .errorJson "user not found", storeCalled := true,
            published := [] }
        | (_, some (.generic _)) =>
          { status := 500, body := .errorJson "user not updated", storeCalled := true,
            published := [] }
        | (some u, none) =>
          { status := 204, body := .empty, storeCalled := true,
            published := [NewUserUpdatedEvent u] }
        | (none, none) =>
          { status := 500, body := .empty, storeCalled := true, published := [],
            panicked := true }

/-- Go: `controller.deleteUser` of the direct revision (controller.go,
lines 435-470): id parse, store delete (not-found 404, other error 500
with body), then a fire-and-forget publish of the "deleted" event carrying
only the identifier. -/
def deleteUserD (idParse : Except String String) (storeErr : Option StorageErr)
    (produceErr : Option String) : HandlerTrace :=
  match idParse with
  | .error e =>
    { status := 400, body := .errorJson ("incorrect user ID format: " ++ e),
      storeCalled := false, published := [] }
  | .ok userID =>
    match storeErr with
    | some .notFound =>
      { status := 404, body := .errorJson "user not found", storeCalled := true,
        published := [] }
    | some _ =>
      { status := 500, body := .errorJson "user not deleted", storeCalled := true,
        published := [] }
    | none =>
      { status := 204, body := .empty, storeCalled := true,
        published := [NewUserDeletedEvent userID] }

/-- C1 (code bug): when the store reports the distinct "write succeeded,
but result decode failed" outcome, the service-wired update path
(`Service.UpdateUser`, the one main.go installs) falls through to the
publish call and dereferences the nil post-write pointer: it panics
instead of returning nil, and the caller sees a bodyless 500 from
gin.Recovery — not the 204 the claim (and the service's own comment)
promise. The direct-controller revision of updateUser does implement the
claimed behavior: 204 and no "updated" event. -/
theorem c1_decode_failure_update_paths :
    serviceUpdateUser testUser 0
        (fun _ => mongoUpdateUser (.decodeFailed "decode failure")) none
      = (.panicked, []) ∧
    updateUserHandler (fun _ => true) (.ok testUser)
        (.ok "11111111-1111-1111-1111-111111111111") 0
        (fun _ => mongoUpdateUser (.decodeFailed "decode failure")) none
      = { status := 500, body := .empty, storeCalled := true, published := [],
          panicked := true } ∧
    updateUserD (fun _ => true) (.ok testUser)
        (.ok "11111111-1111-1111-1111-111111111111") 0
        (fun _ => mongoUpdateUser (.decodeFailed "decode failure")) none
      = { status := 204, body := .empty, storeCalled := true, published := [] } := by
  refine ⟨?_, ?_, ?_⟩ <;> decide

/-- C2: for create, update and delete, when the store write succeeds and
the publish then fails, the publish error is swallowed: the HTTP result is
201 / 204 / 204 and is identical, bit for bit, to the trace with a
successful publish (the attempted event still appears in `published`). -/
theorem c2_publish_failure_swallowed (emailOk : String → Bool) (u updated : User)
    (newID uid : String) (now : Int) (e : String)
    (hv : validateRequiredRequestFields emailOk u = none) :
    (createUserD emailOk (.ok u) (.ok newID) now none (some e)).status = 201 ∧
    createUserD emailOk (.ok u) (.ok newID) now none (some e)
      = createUserD emailOk (.ok u) (.ok newID) now none none ∧
    (updateUserD emailOk (.ok u) (.ok uid) now (fun _ => (some updated, none)) (some e)).status
      = 204 ∧
    updateUserD emailOk (.ok u) (.ok uid) now (fun _ => (some updated, none)) (some e)
      = updateUserD emailOk (.ok u) (.ok uid) now (fun _ => (some updated, none)) none ∧
    (deleteUserD (.ok uid) none (some e)).status = 204 ∧
    deleteUserD (.ok uid) none (some e) = deleteUserD (.ok uid) none none := by
  refine ⟨?_, ?_, ?_, ?_, ?_, ?_⟩ <;> simp [createUserD, updateUserD, deleteUserD, hv]

/-- C2 witness: concrete valid user, failing publish. -/
theorem c2_publish_failure_swallowed_witness :
    validateRequiredRequestFields (fun _ => true) testUser = none ∧
    (createUserD (fun _ => true) (.ok testUser) (.ok "id-1") 7 none (some "kafka down")).status
      = 201 ∧
    (deleteUserD (.ok "id-1") none (some "kafka down")).status = 204 :=
  ⟨by decide,
   (c2_publish_failure_swallowed (fun _ => true) testUser testUser "id-1" "id-1" 7
      "kafka down" (by decide)).1,
   (c2_publish_failure_swallowed (fun _ => true) testUser testUser "id-1" "id-1" 7
      "kafka down" (by decide)).2.2.2.2.1⟩

/-- C8: a JSON-bind failure or a field-validation failure makes the create
and update handlers answer 400 with the error message, with the store
never invoked and no event constructed or published — whatever the store
or producer would have done. -/
theorem c8_validation_failure_precedes_store (emailOk : String → Bool) (e msg : String)
    (u : User) (uuidRes idParse : Except String String) (now : Int)
    (storeErr : Option String) (storeRet : User → Option User × Option StorageErr)
    (produceErr : Option String) :
    createUserD emailOk (.error e) uuidRes now storeErr produceErr
      = { status := 400, body := .errorJson e, storeCalled := false, published := [] } ∧
    (validateRequiredRequestFields emailOk u = some msg →
      createUserD emailOk (.ok u) uuidRes now storeErr produceErr
        = { status := 400, body := .errorJson msg, storeCalled := false, published := [] }) ∧
    updateUserD emailOk (.error e) idParse now storeRet produceErr
      = { status := 400, body := .errorJson e, storeCalled := false, published := [] } ∧
    (validateRequiredRequestFields emailOk u = some msg →
      updateUserD emailOk (.ok u) idParse now storeRet produceErr
        = { status := 400, body := .errorJson msg, storeCalled := false, published := [] }) := by
  refine ⟨by simp [createUserD], ?_, by simp [updateUserD], ?_⟩ <;>
    intro hv <;> simp [createUserD, updateUserD, hv]

/-- C8 witness: a user with an empty first name is rejected with 400,
no store call, no event. -/
theorem c8_validation_failure_precedes_store_witness :
    validateRequiredRequestFields (fun _ => true) testUserNoNames
      = some "first name is required" ∧
    createUserD (fun _ => true) (.ok testUserNoNames) (.ok "id-1") 0 none none
      = { status := 400, body := .errorJson "first name is required",
          storeCalled := false, published := [] } :=
  ⟨by decide,
   (c8_validation_failure_precedes_store (fun _ => true) "" "first name is required"
      testUserNoNames (.ok "id-1") (.ok "id-1") 0 none
      (fun _ => (none, none)) none).2.1 (by decide)⟩

/-- C9: on a generic store failure the single-get and list handlers answer
500 with an EMPTY body (`c.Status`), while create, update and delete
answer 500 with an `error` JSON body ("user not created" / "user not
updated" / "user not deleted"). -/
theorem c9_get_handlers_bodyless_500 (uid e : String) (q : QueryParams)
    (params : GetUsersParams) (hparse : parseGetUsersParams q = Except.ok params) :
    getUserD (.ok uid) (.error (.generic e))
      = { status := 500, body := .empty, storeCalled := true, published := [] } ∧
    getUsersD q (.error e)
      = { status := 500, body := .empty, storeCalled := true, published := [] } ∧
    createUserD (fun _ => true) (.ok testUser) (.ok uid) 0 (some e) none
      = { status := 500, body := .errorJson "user not created", storeCalled := true,
          published := [] } ∧
    updateUserD (fun _ => true) (.ok testUser) (.ok uid) 0
        (fun _ => (none, some (.generic e))) none
      = { status := 500, body := .errorJson "user not updated", storeCalled := true,
          published := [] } ∧
    deleteUserD (.ok uid) (some (.generic e)) none
      = { status := 500, body := .errorJson "user not deleted", storeCalled := true,
          published := [] } := by
  refine ⟨by simp [getUserD], ?_, ?_, ?_, by simp [deleteUserD]⟩
  · rw [getUsersD]
    simp only [hparse]
    cases h : createGetUsersOpts params <;> simp [storageGetUsers, h]
  · simp [createUserD, show validateRequiredRequestFields (fun _ => true) testUser = none
      from by decide]
  · simp [updateUserD, show validateRequiredRequestFields (fun _ => true) testUser = none
      from by decide]

/-- C9 witness: a parameterless list query parses to the defaults, and the
handlers show the two 500 body shapes. -/
theorem c9_get_handlers_bodyless_500_witness :
    parseGetUsersParams emptyQuery
      = Except.ok { pageSize := 20, page := 0,
                    sort := { field := "last_name", type := "asc" }, filterFields := {} } ∧
    getUsersD emptyQuery (.error "db down")
      = { status := 500, body := .empty, storeCalled := true, published := [] } ∧
    getUserD (.ok "id-1") (.error (.generic "db down"))
      = { status := 500, body := .empty, storeCalled := true, published := [] } :=
  ⟨by decide,
   (c9_get_handlers_bodyless_500 "id-1" "db down" emptyQuery
      { pageSize := 20, page := 0, sort := { field := "last_name", type := "asc" },
        filterFields := {} } (by decide)).2.1,
   (c9_get_handlers_bodyless_500 "id-1" "db down" emptyQuery
      { pageSize := 20, page := 0, sort := { field := "last_name", type := "asc" },
        filterFields := {} } (by decide)).1⟩

end UserService
